import Mathlib

/-!
# Verification of the `tutor-legacyfrontends` plugin registration module

Shallow embedding of `src/tutorlegacyfrontends/plugin.py`, a Tutor plugin whose
whole behaviour is to append literal records to the host orchestrator's filter
registries at module-load time.  The host registries are modelled as a
`Registry` record of lists; each registration call of the plugin becomes a
`RegAction`, and the module body becomes a sequence of actions applied in the
source's textual order.  The init-task loop (lines 111-118 of the source) reads
template files through an abstract filesystem `FS`.

The plugin's version string comes from `tutorlegacyfrontends/__about__.py`,
which is not part of the sources; it is kept as an abstract `version`
parameter.  Likewise the package install directory
(`importlib_resources.files("tutorlegacyfrontends")`) is an abstract `pkgDir`
parameter.
-/

/-- An abstract read-only filesystem: maps a path to the file's text content,
or `none` when the file does not exist (Python raises `FileNotFoundError`). -/
def FS : Type := String → Option String

/-- `BUILD_PRODUCTION_ASSETS` (plugin.py lines 18-28).  The Python triple-quoted
string, with escapes resolved exactly as Python does. -/
def BUILD_PRODUCTION_ASSETS : String :=
  "\n# Build & collect production assets. By default, only assets from the default theme\n# will be processed. This makes the docker image lighter and faster to build.\nRUN npm run postinstall  # Postinstall artifacts are stuck in nodejs-requirements layer. Create them here too.\nRUN npm run compile-sass -- --skip-themes\nRUN npm run webpack\n\n# Now that the default theme is built, build any custom themes\nCOPY --chown=app:app ./themes/ /openedx/themes\nRUN npm run compile-sass -- --skip-default\n"

/-- `BUILD_DEVELOPMENT_ASSETS` (plugin.py lines 30-37).  In a non-raw Python
string a backslash followed by a newline elides both, so the three `RUN` lines
join into one line (the indentation of the continuation lines is kept). -/
def BUILD_DEVELOPMENT_ASSETS : String :=
  "\n# Recompile static assets: in development mode all static assets are stored in edx-platform,\n# and the location of these files is stored in webpack-stats.json. If we don\x27t recompile\n# static assets, then production assets will be served instead.\nRUN rm -r /openedx/staticfiles &&     mkdir /openedx/staticfiles &&     npm run build-dev\n"

/-- The state of the host's extension-point registries, one list per filter
touched (or touchable) by this plugin.  An env patch entry is
`(patch_name, text, priority)`; config entries are `(key, value)`;
an images-build entry is `(name, build_context_path, tag, build_args)`. -/
structure Registry where
  env_patches : List (String × String × Nat)
  config_defaults : List (String × String)
  config_unique : List (String × String)
  config_overrides : List (String × String)
  cli_do_init_tasks : List (String × String)
  images_build : List (String × List String × String × List String)
  images_pull : List (String × String)
  images_push : List (String × String)
  env_template_roots : List String
  env_template_targets : List (String × String)
deriving Repr, DecidableEq

/-- The registry before any plugin has registered anything. -/
def emptyRegistry : Registry :=
  { env_patches := []
    config_defaults := []
    config_unique := []
    config_overrides := []
    cli_do_init_tasks := []
    images_build := []
    images_pull := []
    images_push := []
    env_template_roots := []
    env_template_targets := [] }

/-- One registration call made by the plugin module: each constructor is one
`hooks.Filters.<FILTER>.add_item` / `.add_items` call shape. -/
inductive RegAction where
  | envPatch (patchName text : String) (priority : Nat)
  | configDefaults (items : List (String × String))
  | configUnique (items : List (String × String))
  | configOverrides (items : List (String × String))
  | cliDoInitTask (service script : String)
  | imagesBuild (items : List (String × List String × String × List String))
  | imagesPull (items : List (String × String))
  | imagesPush (items : List (String × String))
  | templateRoots (items : List String)
  | templateTargets (items : List (String × String))
deriving Repr, DecidableEq

/-- Applying one registration call: `add_item` / `add_items` append to the
named host-owned list and touch nothing else. -/
def applyAction (a : RegAction) (r : Registry) : Registry :=
  match a with
  | .envPatch patchName text priority =>
      { r with env_patches := r.env_patches ++ [(patchName, text, priority)] }
  | .configDefaults items =>
      { r with config_defaults := r.config_defaults ++ items }
  | .configUnique items =>
      { r with config_unique := r.config_unique ++ items }
  | .configOverrides items =>
      { r with config_overrides := r.config_overrides ++ items }
  | .cliDoInitTask service script =>
      { r with cli_do_init_tasks := r.cli_do_init_tasks ++ [(service, script)] }
  | .imagesBuild items =>
      { r with images_build := r.images_build ++ items }
  | .imagesPull items =>
      { r with images_pull := r.images_pull ++ items }
  | .imagesPush items =>
      { r with images_push := r.images_push ++ items }
  | .templateRoots items =>
      { r with env_template_roots := r.env_template_roots ++ items }
  | .templateTargets items =>
      { r with env_template_targets := r.env_template_targets ++ items }

/-- Apply a sequence of registration calls in order. -/
def applyActions (as : List RegAction) (r : Registry) : Registry :=
  as.foldl (fun acc a => applyAction a acc) r

/-- `MY_INIT_TASKS` (plugin.py lines 100-105): the statically declared list of
`(service, template-path-components)` pairs; empty in the base case. -/
def MY_INIT_TASKS : List (String × List String) := []

/-- The absolute path of an init-task template (plugin.py lines 112-115):
`importlib_resources.files("tutorlegacyfrontends") / os.path.join("templates", *template_path)`. -/
def fullPath (pkgDir : String) (templatePath : List String) : String :=
  pkgDir ++ "/" ++ String.intercalate "/" ("templates" :: templatePath)

/-- The init-task loop (plugin.py lines 111-118), generalised over the declared
task list.  Each iteration opens the template file eagerly and registers the
pair `(service, text)`; a missing file raises `FileNotFoundError` at once,
aborting the rest of the loop (tasks already registered stay registered).
Returns the list of registered `(service, script)` pairs together with the
error, if one was raised. -/
def loadInitTasks (pkgDir : String) (fs : FS) :
    List (String × List String) → List (String × String) × Option String
  | [] => ([], none)
  | (service, templatePath) :: rest =>
    match fs (fullPath pkgDir templatePath) with
    | none =>
        ([], some ("No such file or directory: " ++ fullPath pkgDir templatePath))
    | some text =>
        let result := loadInitTasks pkgDir fs rest
        ((service, text) :: result.1, result.2)

/-- The two `ENV_PATCHES.add_item` calls and the three config `add_items`
calls, in source order (plugin.py lines 39-89). -/
def patchAndConfigActions (version : String) : List RegAction :=
  [ .envPatch "openedx-dockerfile-pre-assets" BUILD_PRODUCTION_ASSETS 100,
    .envPatch "openedx-dev-dockerfile-post-python-requirements" BUILD_DEVELOPMENT_ASSETS 1,
    .configDefaults [("LEGACYFRONTENDS_VERSION", version)],
    .configUnique [],
    .configOverrides [] ]

/-- The image `add_items` calls and the template-root / template-target
`add_items` calls, in source order (plugin.py lines 129-195). -/
def imageAndTemplateActions (pkgDir : String) : List RegAction :=
  [ .imagesBuild [],
    .imagesPull [],
    .imagesPush [],
    .templateRoots [pkgDir ++ "/templates"],
    .templateTargets [("legacyfrontends/build", "plugins"), ("legacyfrontends/apps", "plugins")] ]

/-- Every registration call the plugin module makes, in source order, for a
load in which the init-task loop completes. -/
def pluginActions (version pkgDir : String) (fs : FS) : List RegAction :=
  patchAndConfigActions version
    ++ (loadInitTasks pkgDir fs MY_INIT_TASKS).1.map
        (fun st => RegAction.cliDoInitTask st.1 st.2)
    ++ imageAndTemplateActions pkgDir

/-- Loading the plugin module against a host registry `r`: run every
module-level registration in source order; a `FileNotFoundError` in the
init-task loop propagates and aborts the load (the statements after the loop
never run). -/
def pluginLoad (version pkgDir : String) (fs : FS) (r : Registry) :
    Except String Registry :=
  let r1 := applyActions (patchAndConfigActions version) r
  let loaded := loadInitTasks pkgDir fs MY_INIT_TASKS
  let r2 := applyActions
    (loaded.1.map (fun st => RegAction.cliDoInitTask st.1 st.2)) r1
  match loaded.2 with
  | some e => Except.error e
  | none => Except.ok (applyActions (imageAndTemplateActions pkgDir) r2)

/-- Fieldwise concatenation of two registry states. -/
def appendRegistry (r₁ r₂ : Registry) : Registry :=
  { env_patches := r₁.env_patches ++ r₂.env_patches
    config_defaults := r₁.config_defaults ++ r₂.config_defaults
    config_unique := r₁.config_unique ++ r₂.config_unique
    config_overrides := r₁.config_overrides ++ r₂.config_overrides
    cli_do_init_tasks := r₁.cli_do_init_tasks ++ r₂.cli_do_init_tasks
    images_build := r₁.images_build ++ r₂.images_build
    images_pull := r₁.images_pull ++ r₂.images_pull
    images_push := r₁.images_push ++ r₂.images_push
    env_template_roots := r₁.env_template_roots ++ r₂.env_template_roots
    env_template_targets := r₁.env_template_targets ++ r₂.env_template_targets }

/-- Ordering of env-patch entries by their numeric priority. -/
def patchLE (a b : String × String × Nat) : Prop := a.2.2 ≤ b.2.2

instance : DecidableRel patchLE := fun a b => Nat.decLe a.2.2 b.2.2

instance : IsTotal (String × String × Nat) patchLE :=
  ⟨fun a b => Nat.le_total a.2.2 b.2.2⟩

instance : IsTrans (String × String × Nat) patchLE :=
  ⟨fun _ _ _ hab hbc => Nat.le_trans hab hbc⟩

/-- Modelled from the spec: the host orchestrator's aggregation policy for the
environment-patch registry — the host's source is outside this repository.
Per the spec, patches at one insertion point are concatenated in priority
order, lower priority values first, ties broken by registration order (a
stable sort of the registration list). -/
def renderPatchPoint (point : String) (patches : List (String × String × Nat)) :
    List String :=
  (List.insertionSort patchLE (patches.filter (fun p => p.1 == point))).map
    (fun p => p.2.1)

/-- The plugin's production-assets env-patch entry. -/
def productionAssetsPatch : String × String × Nat :=
  ("openedx-dockerfile-pre-assets", BUILD_PRODUCTION_ASSETS, 100)

/-- The plugin's development-assets env-patch entry. -/
def developmentAssetsPatch : String × String × Nat :=
  ("openedx-dev-dockerfile-post-python-requirements", BUILD_DEVELOPMENT_ASSETS, 1)

/-! ## Helper lemmas -/

/-- In a list sorted by a transitive relation, every element is the last one or
relates to it. -/
lemma sorted_rel_getLast {α : Type _} {r : α → α → Prop} [IsTrans α r] :
    ∀ {l : List α}, List.Sorted r l → ∀ (hne : l ≠ []) (x : α), x ∈ l →
      x = l.getLast hne ∨ r x (l.getLast hne)
  | [], _, hne, _, _ => absurd rfl hne
  | [a], _, _, x, hx => by
      simp only [List.mem_singleton] at hx
      exact Or.inl (by simp [hx, List.getLast])
  | a :: b :: t, hs, hne, x, hx => by
      have htne : b :: t ≠ [] := List.cons_ne_nil b t
      rw [List.getLast_cons htne]
      rcases List.mem_cons.mp hx with hxa | hxbt
      · subst hxa
        exact Or.inr (List.rel_of_sorted_cons hs _ (List.getLast_mem htne))
      · exact sorted_rel_getLast hs.of_cons htne x hxbt

/-- In a list sorted by a relation, every element is the head or the head
relates to it. -/
lemma sorted_rel_head {α : Type _} {r : α → α → Prop} :
    ∀ {l : List α}, List.Sorted r l → ∀ (hne : l ≠ []) (x : α), x ∈ l →
      x = l.head hne ∨ r (l.head hne) x
  | [], _, hne, _, _ => absurd rfl hne
  | a :: t, hs, _, x, hx => by
      rcases List.mem_cons.mp hx with hxa | hxt
      · exact Or.inl (by simp [hxa])
      · exact Or.inr (by simpa using List.rel_of_sorted_cons hs _ hxt)

/-- The registered init tasks are exactly the longest all-files-present prefix
of the declared task list, each paired with its file's content. -/
lemma loadInitTasks_fst (pkgDir : String) (fs : FS) :
    ∀ tasks : List (String × List String),
      (loadInitTasks pkgDir fs tasks).1
        = (tasks.takeWhile (fun t => (fs (fullPath pkgDir t.2)).isSome)).map
            (fun t => (t.1, (fs (fullPath pkgDir t.2)).getD ""))
  | [] => rfl
  | (service, templatePath) :: rest => by
      cases h : fs (fullPath pkgDir templatePath) with
      | none => simp [loadInitTasks, h, List.takeWhile_cons]
      | some text =>
          simp [loadInitTasks, h, List.takeWhile_cons,
            loadInitTasks_fst pkgDir fs rest]

/-- The init-task loop raises no error exactly when every declared task's
template file exists. -/
lemma loadInitTasks_snd_eq_none (pkgDir : String) (fs : FS) :
    ∀ tasks : List (String × List String),
      (loadInitTasks pkgDir fs tasks).2 = none
        ↔ ∀ t ∈ tasks, (fs (fullPath pkgDir t.2)).isSome = true
  | [] => by simp [loadInitTasks]
  | (service, templatePath) :: rest => by
      cases h : fs (fullPath pkgDir templatePath) with
      | none => simp [loadInitTasks, h]
      | some text =>
          simp [loadInitTasks, h, loadInitTasks_snd_eq_none pkgDir fs rest]

/-- Every registration call is a pure append: its result is the input registry
followed fieldwise by what the same call contributes to an empty registry. -/
lemma applyAction_append (a : RegAction) (r : Registry) :
    applyAction a r = appendRegistry r (applyAction a emptyRegistry) := by
  cases a <;> simp [applyAction, appendRegistry, emptyRegistry]

/-! ## Claim theorems -/

/-- C3: In the base case the configuration-defaults registration contributes
exactly one entry, whose key is `LEGACYFRONTENDS_VERSION` and whose value is
the plugin's version string; nothing else is registered to the defaults tier
by this plugin. -/
theorem config_defaults_single_version_entry (version pkgDir : String) (fs : FS) :
    (applyActions (pluginActions version pkgDir fs) emptyRegistry).config_defaults
      = [("LEGACYFRONTENDS_VERSION", version)] := rfl

/-- C4: The plugin registers exactly the two declared template-target pairs
`(legacyfrontends/build, plugins)` and `(legacyfrontends/apps, plugins)`, in
that order, and exactly one template root directory (the package's
`templates` directory). -/
theorem template_targets_and_roots (version pkgDir : String) (fs : FS) :
    (applyActions (pluginActions version pkgDir fs) emptyRegistry).env_template_targets
        = [("legacyfrontends/build", "plugins"), ("legacyfrontends/apps", "plugins")]
      ∧ (applyActions (pluginActions version pkgDir fs) emptyRegistry).env_template_roots
        = [pkgDir ++ "/templates"]
      ∧ (applyActions (pluginActions version pkgDir fs) emptyRegistry).env_template_roots.length
        = 1 :=
  ⟨rfl, rfl, rfl⟩

/-- C5: Every statically declared list that is empty in the base configuration
— config unique, config overrides, image build, image pull, image push, and
init tasks — contributes exactly zero entries to its host registry. -/
theorem empty_lists_register_nothing (version pkgDir : String) (fs : FS) :
    (applyActions (pluginActions version pkgDir fs) emptyRegistry).config_unique = []
      ∧ (applyActions (pluginActions version pkgDir fs) emptyRegistry).config_overrides = []
      ∧ (applyActions (pluginActions version pkgDir fs) emptyRegistry).images_build = []
      ∧ (applyActions (pluginActions version pkgDir fs) emptyRegistry).images_pull = []
      ∧ (applyActions (pluginActions version pkgDir fs) emptyRegistry).images_push = []
      ∧ (applyActions (pluginActions version pkgDir fs) emptyRegistry).cli_do_init_tasks = [] :=
  ⟨rfl, rfl, rfl, rfl, rfl, rfl⟩

/-- C10: The two Dockerfile patches registered by the plugin target two
distinct insertion-point names, so the priorities 100 and 1 never compete at
one insertion point, and each of the two insertion points receives exactly one
patch from this plugin. -/
theorem patch_points_distinct (version pkgDir : String) (fs : FS) :
    (applyActions (pluginActions version pkgDir fs) emptyRegistry).env_patches.map
        (fun p => p.1)
        = ["openedx-dockerfile-pre-assets",
           "openedx-dev-dockerfile-post-python-requirements"]
      ∧ ("openedx-dockerfile-pre-assets" : String)
          ≠ "openedx-dev-dockerfile-post-python-requirements"
      ∧ ((applyActions (pluginActions version pkgDir fs) emptyRegistry).env_patches.filter
          (fun p => p.1 == "openedx-dockerfile-pre-assets")).length = 1
      ∧ ((applyActions (pluginActions version pkgDir fs) emptyRegistry).env_patches.filter
          (fun p => p.1 == "openedx-dev-dockerfile-post-python-requirements")).length = 1 := by
  refine ⟨rfl, by decide, ?_, ?_⟩
  · have h : (applyActions (pluginActions version pkgDir fs) emptyRegistry).env_patches
        = [productionAssetsPatch, developmentAssetsPatch] := rfl
    rw [h]
    rfl
  · have h : (applyActions (pluginActions version pkgDir fs) emptyRegistry).env_patches
        = [productionAssetsPatch, developmentAssetsPatch] := rfl
    rw [h]
    rfl

/-- C8: Loading the plugin module against a fresh host registry twice produces
the same registry entries in the same order both times: the outcome is a pure
function of the load inputs and does not vary between runs. -/
theorem double_registration_deterministic (version pkgDir : String) (fs : FS)
    (r₁ r₂ : Registry) (h₁ : r₁ = emptyRegistry) (h₂ : r₂ = emptyRegistry) :
    pluginLoad version pkgDir fs r₁ = pluginLoad version pkgDir fs r₂ := by
  rw [h₁, h₂]

/-- Witness for C8 at concrete inputs. -/
theorem double_registration_deterministic_witness :
    pluginLoad "1.0.0" "/pkg" (fun _ => none) emptyRegistry
      = pluginLoad "1.0.0" "/pkg" (fun _ => none) emptyRegistry :=
  double_registration_deterministic "1.0.0" "/pkg" (fun _ => none)
    emptyRegistry emptyRegistry rfl rfl

/-- C9: During its load pass the plugin only appends to the host registries:
every registration call leaves the prior registry contents as an unchanged
prefix and appends a suffix that does not depend on the prior contents (so it
never reads, removes, or mutates existing entries); and a full load is exactly
the sequential application of the plugin's registration calls. -/
theorem load_pass_append_only (version pkgDir : String) (fs : FS) (r : Registry) :
    (∀ a ∈ pluginActions version pkgDir fs,
        applyAction a r = appendRegistry r (applyAction a emptyRegistry))
      ∧ pluginLoad version pkgDir fs r
        = Except.ok (applyActions (pluginActions version pkgDir fs) r) :=
  ⟨fun a _ => applyAction_append a r, rfl⟩

/-- Witness for C9 at concrete inputs. -/
theorem load_pass_append_only_witness :
    (∀ a ∈ pluginActions "1.0.0" "/pkg" (fun _ => none),
        applyAction a emptyRegistry
          = appendRegistry emptyRegistry (applyAction a emptyRegistry))
      ∧ pluginLoad "1.0.0" "/pkg" (fun _ => none) emptyRegistry
        = Except.ok (applyActions (pluginActions "1.0.0" "/pkg" (fun _ => none))
            emptyRegistry) :=
  load_pass_append_only "1.0.0" "/pkg" (fun _ => none) emptyRegistry

/-- C6: Every configuration key this plugin registers, in any of the three
tiers (defaults, unique, overrides), starts with the namespace `LEGACYFRONTENDS_`. -/
theorem config_keys_namespaced (version pkgDir : String) (fs : FS)
    (key value : String)
    (h : (key, value) ∈
      (applyActions (pluginActions version pkgDir fs) emptyRegistry).config_defaults
        ++ (applyActions (pluginActions version pkgDir fs) emptyRegistry).config_unique
        ++ (applyActions (pluginActions version pkgDir fs) emptyRegistry).config_overrides) :
    "LEGACYFRONTENDS_".data.isPrefixOf key.data = true := by
  have h' : (key, value) ∈ ([("LEGACYFRONTENDS_VERSION", version)] : List (String × String)) := h
  have hkey : key = "LEGACYFRONTENDS_VERSION" :=
    congrArg Prod.fst (List.mem_singleton.mp h')
  rw [hkey]
  decide

/-- Witness for C6 at concrete inputs. -/
theorem config_keys_namespaced_witness :
    "LEGACYFRONTENDS_".data.isPrefixOf "LEGACYFRONTENDS_VERSION".data = true :=
  config_keys_namespaced "1.0.0" "/pkg" (fun _ => none)
    "LEGACYFRONTENDS_VERSION" "1.0.0"
    (List.mem_append.mpr (Or.inl (List.mem_append.mpr (Or.inl (List.mem_singleton.mpr rfl)))))

/-- C2: For each declared init task the script text registered to the
init-task filter is exactly the content of its source template file: when the
loop raises no error, the registered list is the task list mapped to
`(service, file content)`, and each file read back yields exactly that
content; the plugin's registry holds exactly the loop's output. -/
theorem init_task_roundtrip (version pkgDir : String) (fs : FS)
    (tasks : List (String × List String))
    (hok : (loadInitTasks pkgDir fs tasks).2 = none) :
    ((loadInitTasks pkgDir fs tasks).1
        = tasks.map (fun t => (t.1, (fs (fullPath pkgDir t.2)).getD ""))
      ∧ ∀ t ∈ tasks,
          fs (fullPath pkgDir t.2) = some ((fs (fullPath pkgDir t.2)).getD ""))
    ∧ (applyActions (pluginActions version pkgDir fs) emptyRegistry).cli_do_init_tasks
        = (loadInitTasks pkgDir fs MY_INIT_TASKS).1 := by
  have hall : ∀ t ∈ tasks, (fs (fullPath pkgDir t.2)).isSome = true :=
    (loadInitTasks_snd_eq_none pkgDir fs tasks).mp hok
  refine ⟨⟨?_, ?_⟩, rfl⟩
  · rw [loadInitTasks_fst pkgDir fs tasks, List.takeWhile_eq_self_iff.mpr hall]
  · intro t ht
    rcases Option.isSome_iff_exists.mp (hall t ht) with ⟨c, hc⟩
    rw [hc]
    rfl

/-- A sample filesystem holding one init-task template, used by witnesses. -/
def sampleFS : FS :=
  fun p => if p == "/pkg/templates/legacyfrontends/tasks/lms/init.sh"
    then some "echo ok" else none

/-- A sample declared init-task list, used by witnesses. -/
def sampleTasks : List (String × List String) :=
  [("lms", ["legacyfrontends", "tasks", "lms", "init.sh"])]

/-- A filesystem with no files at all, used by witnesses. -/
def noneFS : FS := fun _ => none

/-- Witness for C2 at concrete inputs. -/
theorem init_task_roundtrip_witness :
    ((loadInitTasks "/pkg" sampleFS sampleTasks).1
        = sampleTasks.map (fun t => (t.1, (sampleFS (fullPath "/pkg" t.2)).getD ""))
      ∧ ∀ t ∈ sampleTasks,
          sampleFS (fullPath "/pkg" t.2)
            = some ((sampleFS (fullPath "/pkg" t.2)).getD ""))
    ∧ (applyActions (pluginActions "1.0.0" "/pkg" sampleFS) emptyRegistry).cli_do_init_tasks
        = (loadInitTasks "/pkg" sampleFS MY_INIT_TASKS).1 :=
  init_task_roundtrip "1.0.0" "/pkg" sampleFS sampleTasks (by decide)

/-- C7: A declared init task whose template file does not exist makes the
plugin load fail with a file-not-found error; the registered init tasks are
exactly the longest prefix of the declared list whose files all exist, so the
failing task registers nothing (it is not in that prefix) — there is no
fallback and no lazy loading; and with the empty task list no file is
consulted: the loop's result is `([], none)` for every filesystem. -/
theorem missing_template_fails_load (pkgDir : String) (fs : FS)
    (tasks : List (String × List String)) (entry : String × List String)
    (hmem : entry ∈ tasks) (hmiss : fs (fullPath pkgDir entry.2) = none) :
    ((loadInitTasks pkgDir fs tasks).2.isSome = true
      ∧ (loadInitTasks pkgDir fs tasks).1
          = (tasks.takeWhile (fun t => (fs (fullPath pkgDir t.2)).isSome)).map
              (fun t => (t.1, (fs (fullPath pkgDir t.2)).getD ""))
      ∧ entry ∉ tasks.takeWhile (fun t => (fs (fullPath pkgDir t.2)).isSome))
    ∧ ∀ g : FS, loadInitTasks pkgDir g [] = ([], none) := by
  refine ⟨⟨?_, loadInitTasks_fst pkgDir fs tasks, ?_⟩, fun g => rfl⟩
  · cases ho : (loadInitTasks pkgDir fs tasks).2 with
    | none =>
        have := (loadInitTasks_snd_eq_none pkgDir fs tasks).mp ho entry hmem
        rw [hmiss] at this
        exact absurd this (by decide)
    | some e => rfl
  · intro hin
    have hp := List.mem_takeWhile_imp hin
    rw [hmiss] at hp
    exact absurd hp (by decide)

/-- Witness for C7 at concrete inputs. -/
theorem missing_template_fails_load_witness :
    ((loadInitTasks "/pkg" noneFS sampleTasks).2.isSome = true
      ∧ (loadInitTasks "/pkg" noneFS sampleTasks).1
          = (sampleTasks.takeWhile (fun t => (noneFS (fullPath "/pkg" t.2)).isSome)).map
              (fun t => (t.1, (noneFS (fullPath "/pkg" t.2)).getD ""))
      ∧ ("lms", ["legacyfrontends", "tasks", "lms", "init.sh"])
          ∉ sampleTasks.takeWhile (fun t => (noneFS (fullPath "/pkg" t.2)).isSome))
    ∧ ∀ g : FS, loadInitTasks "/pkg" g [] = ([], none) :=
  missing_template_fails_load "/pkg" noneFS sampleTasks
    ("lms", ["legacyfrontends", "tasks", "lms", "init.sh"])
    (List.mem_singleton.mpr rfl) rfl

/-- C1: The plugin registers exactly two Dockerfile patches — the
production-assets patch at `openedx-dockerfile-pre-assets` with priority 100
and the development-assets patch at
`openedx-dev-dockerfile-post-python-requirements` with priority 1 — and under
the host's priority-ordered concatenation, against any other patches at those
insertion points whose priority lies strictly between 1 and 100 (e.g. a
default of 50), the production-assets text is concatenated strictly after all
of them (it is last) and the development-assets text strictly before all of
them (it is first). -/
theorem patch_priority_ordering (version pkgDir : String) (fs : FS)
    (l : List (String × String × Nat))
    (hprod : productionAssetsPatch ∈ l)
    (hdev : developmentAssetsPatch ∈ l)
    (hothersA : ∀ p ∈ l, p.1 = "openedx-dockerfile-pre-assets" →
        p ≠ productionAssetsPatch → 1 < p.2.2 ∧ p.2.2 < 100)
    (hothersB : ∀ p ∈ l, p.1 = "openedx-dev-dockerfile-post-python-requirements" →
        p ≠ developmentAssetsPatch → 1 < p.2.2 ∧ p.2.2 < 100) :
    (applyActions (pluginActions version pkgDir fs) emptyRegistry).env_patches
        = [productionAssetsPatch, developmentAssetsPatch]
      ∧ (renderPatchPoint "openedx-dockerfile-pre-assets" l).getLast?
          = some BUILD_PRODUCTION_ASSETS
      ∧ (renderPatchPoint "openedx-dev-dockerfile-post-python-requirements" l).head?
          = some BUILD_DEVELOPMENT_ASSETS := by
  refine ⟨rfl, ?_, ?_⟩
  · -- production side: the sorted patch list at the point ends with our patch
    have hmemfl : productionAssetsPatch
        ∈ l.filter (fun p => p.1 == "openedx-dockerfile-pre-assets") :=
      List.mem_filter.mpr ⟨hprod, by decide⟩
    have hmems : productionAssetsPatch
        ∈ List.insertionSort patchLE
            (l.filter (fun p => p.1 == "openedx-dockerfile-pre-assets")) :=
      (List.mem_insertionSort patchLE).mpr hmemfl
    have hne : List.insertionSort patchLE
        (l.filter (fun p => p.1 == "openedx-dockerfile-pre-assets")) ≠ [] :=
      List.ne_nil_of_mem hmems
    have hsorted := List.sorted_insertionSort patchLE
      (l.filter (fun p => p.1 == "openedx-dockerfile-pre-assets"))
    have hlastmem := List.getLast_mem hne
    have hlast_filter := (List.mem_insertionSort patchLE).mp hlastmem
    have hlast_l := (List.mem_filter.mp hlast_filter).1
    have hlast_pt : ((List.insertionSort patchLE
        (l.filter (fun p => p.1 == "openedx-dockerfile-pre-assets"))).getLast hne).1
          = "openedx-dockerfile-pre-assets" :=
      eq_of_beq (List.mem_filter.mp hlast_filter).2
    have h100 : 100 ≤ ((List.insertionSort patchLE
        (l.filter (fun p => p.1 == "openedx-dockerfile-pre-assets"))).getLast hne).2.2 := by
      rcases sorted_rel_getLast hsorted hne productionAssetsPatch hmems with heq | hle
      · rw [← heq]
        decide
      · exact hle
    have hlasteq : (List.insertionSort patchLE
        (l.filter (fun p => p.1 == "openedx-dockerfile-pre-assets"))).getLast hne
          = productionAssetsPatch := by
      by_contra hneq
      have hb := hothersA _ hlast_l hlast_pt hneq
      omega
    show ((List.insertionSort patchLE
        (l.filter (fun p => p.1 == "openedx-dockerfile-pre-assets"))).map
          (fun p => p.2.1)).getLast? = some BUILD_PRODUCTION_ASSETS
    rw [List.getLast?_map, List.getLast?_eq_getLast_of_ne_nil hne, hlasteq]
    rfl
  · -- development side: the sorted patch list at the point starts with our patch
    have hmemfl : developmentAssetsPatch
        ∈ l.filter (fun p => p.1 == "openedx-dev-dockerfile-post-python-requirements") :=
      List.mem_filter.mpr ⟨hdev, by decide⟩
    have hmems : developmentAssetsPatch
        ∈ List.insertionSort patchLE
            (l.filter (fun p => p.1 == "openedx-dev-dockerfile-post-python-requirements")) :=
      (List.mem_insertionSort patchLE).mpr hmemfl
    have hne : List.insertionSort patchLE
        (l.filter (fun p => p.1 == "openedx-dev-dockerfile-post-python-requirements")) ≠ [] :=
      List.ne_nil_of_mem hmems
    have hsorted := List.sorted_insertionSort patchLE
      (l.filter (fun p => p.1 == "openedx-dev-dockerfile-post-python-requirements"))
    have hheadmem := List.head_mem hne
    have hhead_filter := (List.mem_insertionSort patchLE).mp hheadmem
    have hhead_l := (List.mem_filter.mp hhead_filter).1
    have hhead_pt : ((List.insertionSort patchLE
        (l.filter (fun p => p.1 == "openedx-dev-dockerfile-post-python-requirements"))).head hne).1
          = "openedx-dev-dockerfile-post-python-requirements" :=
      eq_of_beq (List.mem_filter.mp hhead_filter).2
    have h1 : ((List.insertionSort patchLE
        (l.filter (fun p => p.1 == "openedx-dev-dockerfile-post-python-requirements"))).head hne).2.2
          ≤ 1 := by
      rcases sorted_rel_head hsorted hne developmentAssetsPatch hmems with heq | hle
      · rw [← heq]
        decide
      · exact hle
    have hheadeq : (List.insertionSort patchLE
        (l.filter (fun p => p.1 == "openedx-dev-dockerfile-post-python-requirements"))).head hne
          = developmentAssetsPatch := by
      by_contra hneq
      have hb := hothersB _ hhead_l hhead_pt hneq
      omega
    show ((List.insertionSort patchLE
        (l.filter (fun p => p.1 == "openedx-dev-dockerfile-post-python-requirements"))).map
          (fun p => p.2.1)).head? = some BUILD_DEVELOPMENT_ASSETS
    rw [List.head?_map, List.head?_eq_head hne, hheadeq]
    rfl

set_option maxRecDepth 20000 in
/-- Witness for C1 at concrete inputs: two foreign default-priority (50)
patches share the plugin's insertion points. -/
theorem patch_priority_ordering_witness :
    (applyActions (pluginActions "1.0.0" "/pkg" noneFS) emptyRegistry).env_patches
        = [productionAssetsPatch, developmentAssetsPatch]
      ∧ (renderPatchPoint "openedx-dockerfile-pre-assets"
          [("openedx-dockerfile-pre-assets", "other production patch", 50),
           productionAssetsPatch, developmentAssetsPatch,
           ("openedx-dev-dockerfile-post-python-requirements", "other dev patch", 50)]).getLast?
          = some BUILD_PRODUCTION_ASSETS
      ∧ (renderPatchPoint "openedx-dev-dockerfile-post-python-requirements"
          [("openedx-dockerfile-pre-assets", "other production patch", 50),
           productionAssetsPatch, developmentAssetsPatch,
           ("openedx-dev-dockerfile-post-python-requirements", "other dev patch", 50)]).head?
          = some BUILD_DEVELOPMENT_ASSETS :=
  patch_priority_ordering "1.0.0" "/pkg" noneFS
    [("openedx-dockerfile-pre-assets", "other production patch", 50),
     productionAssetsPatch, developmentAssetsPatch,
     ("openedx-dev-dockerfile-post-python-requirements", "other dev patch", 50)]
    (by decide) (by decide) (by decide) (by decide)
